import Mathlib

/-! Shallow embedding of the OSC command bridge of the Shogun Remote OSC
application (src/osc/osc_server.py, src/config.py, src/gui/osc_handlers.py)
together with theorems settling the specification claims about it.

Conventions of the embedding: Qt signal emissions, log calls and task
submissions performed by a handler are recorded, in program order, in a
trace list; asynchronous backend operations are values describing which
backend call was requested; fallible external effects (socket creation,
datagram send, socket bind) are driven by explicit outcome parameters.
All definitions are translated from the Python source; Python str.strip
and str() are embedded as pyStrip and OSCArg.pyStr. -/

namespace ShogunOSC

/-- Log levels of the Python logging module as used by the source. -/
inductive LogLevel where
  | debug
  | info
  | warning
  | error
  deriving DecidableEq

/-- Asynchronous backend operations of the capture-service collaborator
(shogun_worker methods invoked inside tasks in src/osc/osc_server.py). -/
inductive BackendCall where
  | startcapture
  | stopcapture
  | setCaptureName (name : String)
  | setCaptureDescription (text : String)
  | setCaptureFolder (path : String)
  deriving DecidableEq

/-- One observable step of a handler: a log call, a message_signal.emit
(address, text) pair, or the submission of a backend task via _run_task. -/
inductive TraceItem where
  | log (level : LogLevel) (text : String)
  | emit (address : String) (value : String)
  | submit (call : BackendCall)
  deriving DecidableEq

/-- The capture-service collaborator as the handlers see it: only its
connected flag is consulted (self.shogun_worker.connected). -/
structure ShogunWorker where
  connected : Bool
  deriving DecidableEq

/-- Truthiness of the Python guard `self.shogun_worker and
self.shogun_worker.connected`: false when the worker is absent (None). -/
def workerConnected : Option ShogunWorker → Bool
  | some w => w.connected
  | none => false

/-- OSC argument values as the handlers receive them (string, integer or
boolean; floats do not occur in any claim and are omitted). -/
inductive OSCArg where
  | str (v : String)
  | int (v : Int)
  | boolean (v : Bool)
  deriving DecidableEq

/-- Python str() applied to an OSC argument, as in str(args[0]). -/
def OSCArg.pyStr : OSCArg → String
  | OSCArg.str v => v
  | OSCArg.int v => toString v
  | OSCArg.boolean v => if v then "True" else "False"

/-- Characters removed by Python str.strip() with no argument (ASCII
whitespace; the rare non-ASCII Unicode whitespace is not modelled). -/
def isPyWhitespace (c : Char) : Bool :=
  c == ' ' || c == '\t' || c == '\n' || c == '\r' || c == '\x0b' || c == '\x0c'

/-- Python str.strip(): drop leading and trailing whitespace. -/
def pyStrip (s : String) : String :=
  String.mk (((s.data.dropWhile isPyWhitespace).reverse.dropWhile isPyWhitespace).reverse)

/-- Projection selecting message_signal emissions from a trace item. -/
def emitOf : TraceItem → Option (String × String)
  | TraceItem.emit a v => some (a, v)
  | _ => none

/-- All (address, text) status events emitted by a trace, in order. -/
def emittedEvents (trace : List TraceItem) : List (String × String) :=
  trace.filterMap emitOf

/-- Projection selecting backend-task submissions from a trace item. -/
def submitOf : TraceItem → Option BackendCall
  | TraceItem.submit c => some c
  | _ => none

/-- All backend calls submitted to the task pool by a trace, in order. -/
def backendCalls (trace : List TraceItem) : List BackendCall :=
  trace.filterMap submitOf

/-- Projection selecting warning-level log texts from a trace item. -/
def warnOf : TraceItem → Option String
  | TraceItem.log LogLevel.warning t => some t
  | _ => none

/-- All warning-level log messages produced by a trace, in order. -/
def warningLogs (trace : List TraceItem) : List String :=
  trace.filterMap warnOf

/-- OSCServer.start_recording (src/osc/osc_server.py lines 100-120):
log, emit the status event, then submit startcapture when the worker
reports itself connected, else log a warning. -/
def start_recording (worker : Option ShogunWorker) (address : String)
    (_args : List OSCArg) : List TraceItem :=
  [TraceItem.log LogLevel.info ("Получена команда OSC: " ++ address ++ " -> Запуск записи"),
   TraceItem.emit address "Запуск записи"]
  ++ (if workerConnected worker then
        [TraceItem.submit BackendCall.startcapture]
      else
        [TraceItem.log LogLevel.warning "Не удалось запустить запись: нет подключения к Shogun Live"])

/-- OSCServer.stop_recording (src/osc/osc_server.py lines 122-142). -/
def stop_recording (worker : Option ShogunWorker) (address : String)
    (_args : List OSCArg) : List TraceItem :=
  [TraceItem.log LogLevel.info ("Получена команда OSC: " ++ address ++ " -> Остановка записи"),
   TraceItem.emit address "Остановка записи"]
  ++ (if workerConnected worker then
        [TraceItem.submit BackendCall.stopcapture]
      else
        [TraceItem.log LogLevel.warning "Не удалось остановить запись: нет подключения к Shogun Live"])

/-- OSCServer.set_capture_name (src/osc/osc_server.py lines 144-182):
reject on no argument; strip args[0]; reject when empty after strip;
otherwise emit the status event and submit the backend call when
connected. -/
def set_capture_name (worker : Option ShogunWorker) (address : String)
    (args : List OSCArg) : List TraceItem :=
  match args with
  | [] =>
    [TraceItem.log LogLevel.warning ("Получена команда OSC: " ++ address ++ " -> Отсутствует имя захвата"),
     TraceItem.emit address "Ошибка: отсутствует имя захвата"]
  | a :: _ =>
    let new_name := pyStrip a.pyStr
    if new_name.isEmpty then
      [TraceItem.log LogLevel.warning ("Получена команда OSC: " ++ address ++ " -> Пустое имя захвата"),
       TraceItem.emit address "Ошибка: пустое имя захвата"]
    else
      [TraceItem.log LogLevel.info ("Получена команда OSC: " ++ address ++ " -> Установка имени захвата: \x27" ++ new_name ++ "\x27"),
       TraceItem.emit address ("Установка имени захвата: \x27" ++ new_name ++ "\x27")]
      ++ (if workerConnected worker then
            [TraceItem.submit (BackendCall.setCaptureName new_name)]
          else
            [TraceItem.log LogLevel.warning "Не удалось установить имя захвата: нет подключения к Shogun Live"])

/-- OSCServer.set_capture_description (src/osc/osc_server.py lines
184-218): reject on no argument; otherwise forward str(args[0]) verbatim
(no strip, no emptiness check) and submit when connected. -/
def set_capture_description (worker : Option ShogunWorker) (address : String)
    (args : List OSCArg) : List TraceItem :=
  match args with
  | [] =>
    [TraceItem.log LogLevel.warning ("Получена команда OSC: " ++ address ++ " -> Отсутствует описание захвата"),
     TraceItem.emit address "Ошибка: отсутствует описание захвата"]
  | a :: _ =>
    let new_description := a.pyStr
    [TraceItem.log LogLevel.info ("Получена команда OSC: " ++ address ++ " -> Установка описания захвата: \x27" ++ new_description ++ "\x27"),
     TraceItem.emit address ("Установка описания захвата: \x27" ++ new_description ++ "\x27")]
    ++ (if workerConnected worker then
          [TraceItem.submit (BackendCall.setCaptureDescription new_description)]
        else
          [TraceItem.log LogLevel.warning "Не удалось установить описание захвата: нет подключения к Shogun Live"])

/-- OSCServer.set_capture_folder (src/osc/osc_server.py lines 220-258):
same shape as set_capture_name, for the capture folder path. -/
def set_capture_folder (worker : Option ShogunWorker) (address : String)
    (args : List OSCArg) : List TraceItem :=
  match args with
  | [] =>
    [TraceItem.log LogLevel.warning ("Получена команда OSC: " ++ address ++ " -> Отсутствует путь к папке захвата"),
     TraceItem.emit address "Ошибка: отсутствует путь к папке захвата"]
  | a :: _ =>
    let new_folder_path := pyStrip a.pyStr
    if new_folder_path.isEmpty then
      [TraceItem.log LogLevel.warning ("Получена команда OSC: " ++ address ++ " -> Пустой путь к папке захвата"),
       TraceItem.emit address "Ошибка: пустой путь к папке захвата"]
    else
      [TraceItem.log LogLevel.info ("Получена команда OSC: " ++ address ++ " -> Установка пути к папке захвата: \x27" ++ new_folder_path ++ "\x27"),
       TraceItem.emit address ("Установка пути к папке захвата: \x27" ++ new_folder_path ++ "\x27")]
      ++ (if workerConnected worker then
            [TraceItem.submit (BackendCall.setCaptureFolder new_folder_path)]
          else
            [TraceItem.log LogLevel.warning "Не удалось установить путь к папке захвата: нет подключения к Shogun Live"])

/-- OSCServer.default_handler (src/osc/osc_server.py lines 260-270):
join the arguments with a comma or report that there are none, log at
debug level and emit the event; it performs no backend call. -/
def default_handler (_worker : Option ShogunWorker) (address : String)
    (args : List OSCArg) : List TraceItem :=
  let args_str := if args.isEmpty then "нет аргументов"
                  else String.intercalate ", " (args.map OSCArg.pyStr)
  [TraceItem.log LogLevel.debug ("Получено неизвестное OSC-сообщение: " ++ address ++ " -> " ++ args_str),
   TraceItem.emit address args_str]

/-- OSC address constant OSC_START_RECORDING (src/config.py). -/
def OSC_START_RECORDING : String := "/RecordStartShogunLive"

/-- OSC address constant OSC_STOP_RECORDING (src/config.py). -/
def OSC_STOP_RECORDING : String := "/RecordStopShogunLive"

/-- OSC address constant OSC_SET_CAPTURE_FOLDER (src/config.py). -/
def OSC_SET_CAPTURE_FOLDER : String := "/SetCaptureFolder"

/-- OSC address constant OSC_CAPTURE_NAME_CHANGED (src/config.py). -/
def OSC_CAPTURE_NAME_CHANGED : String := "/ShogunLiveCaptureName"

/-- Names of the five handlers registered by OSCServer.setup_dispatcher. -/
inductive HandlerId where
  | startRec
  | stopRec
  | setName
  | setDescr
  | setFolder
  deriving DecidableEq

/-- The dispatch table built by OSCServer.setup_dispatcher
(src/osc/osc_server.py lines 69-76): address to handler bindings. -/
def dispatchTable : List (String × HandlerId) :=
  [(OSC_START_RECORDING, HandlerId.startRec),
   (OSC_STOP_RECORDING, HandlerId.stopRec),
   ("/SetCaptureName", HandlerId.setName),
   ("/SetCaptureDescription", HandlerId.setDescr),
   (OSC_SET_CAPTURE_FOLDER, HandlerId.setFolder)]

/-- Exact-address lookup in the dispatch table (the pythonosc Dispatcher
resolves a plain incoming address to the handler registered for that
exact address; unmatched addresses fall to the default handler set by
set_default_handler). -/
def lookupHandler (address : String) : Option HandlerId :=
  (dispatchTable.find? (fun p => p.1 == address)).map Prod.snd

/-- Dereference a handler name to the handler function it was bound to. -/
def runHandler : HandlerId → Option ShogunWorker → String → List OSCArg → List TraceItem
  | HandlerId.startRec => start_recording
  | HandlerId.stopRec => stop_recording
  | HandlerId.setName => set_capture_name
  | HandlerId.setDescr => set_capture_description
  | HandlerId.setFolder => set_capture_folder

/-- Dispatch of one received datagram: run the matching handler, or the
default handler when no registered address matches. The second component
counts how many times the default handler was invoked for this datagram. -/
def dispatchMessage (worker : Option ShogunWorker) (address : String)
    (args : List OSCArg) : List TraceItem × Nat :=
  match lookupHandler address with
  | some h => (runHandler h worker address args, 0)
  | none => (default_handler worker address args, 1)

/-- Terminal signals of one ShogunTask (ShogunTaskSignals in
src/osc/osc_server.py): finished with the operation result, or error
with the stringified exception. -/
inductive TaskSignal (α : Type) where
  | finished (result : α)
  | error (msg : String)
  deriving DecidableEq

/-- ShogunTask.run (src/osc/osc_server.py lines 35-47): execute the
wrapped coroutine on a fresh event loop; on success emit finished with
its result, on any exception log it and emit error with its message.
The coroutine outcome is passed in as an Except value; the returned pair
is (log entries, emitted terminal signals). The Lean function is total,
so no exception ever escapes to the caller or the inbound loop thread. -/
def taskRun {α : Type} (coro : Except String α) :
    List (LogLevel × String) × List (TaskSignal α) :=
  match coro with
  | Except.ok r => ([], [TaskSignal.finished r])
  | Except.error e =>
    ([(LogLevel.error, "Ошибка в ShogunTask: " ++ e)], [TaskSignal.error e])

/-- Projection selecting finished results from a task signal. -/
def finishedOf {α : Type} : TaskSignal α → Option α
  | TaskSignal.finished r => some r
  | _ => none

/-- All finished results among a list of task signals. -/
def finishedResults {α : Type} (signals : List (TaskSignal α)) : List α :=
  signals.filterMap finishedOf

/-- Projection selecting error messages from a task signal. -/
def errorOf {α : Type} : TaskSignal α → Option String
  | TaskSignal.error e => some e
  | _ => none

/-- All error messages among a list of task signals. -/
def errorMessages {α : Type} (signals : List (TaskSignal α)) : List String :=
  signals.filterMap errorOf

/-- The slice of settings_manager.settings_cache (src/config.py) the
outbound path reads: the configured outbound target. -/
structure SettingsCache where
  osc_broadcast_ip : String
  osc_broadcast_port : Nat
  deriving DecidableEq

/-- State of the config module (src/config.py): the live settings cache
of settings_manager, plus the module-level constants
DEFAULT_OSC_BROADCAST_IP and DEFAULT_OSC_BROADCAST_PORT, which are
assigned once, when the module is imported. -/
structure ConfigModule where
  cache : SettingsCache
  DEFAULT_OSC_BROADCAST_IP : String
  DEFAULT_OSC_BROADCAST_PORT : Nat
  deriving DecidableEq

/-- Import of src/config.py: the DEFAULT_* constants are initialised
from settings_manager.get at import time (src/config.py lines 263-266). -/
def configLoad (stored : SettingsCache) : ConfigModule :=
  { cache := stored,
    DEFAULT_OSC_BROADCAST_IP := stored.osc_broadcast_ip,
    DEFAULT_OSC_BROADCAST_PORT := stored.osc_broadcast_port }

/-- settings_manager.set("osc_broadcast_ip", v) (src/config.py
SettingsManager.set): updates the settings cache; the module-level
DEFAULT_* constants are not reassigned. -/
def setBroadcastIp (m : ConfigModule) (v : String) : ConfigModule :=
  { m with cache := { m.cache with osc_broadcast_ip := v } }

/-- settings_manager.set("osc_broadcast_port", v): updates the settings
cache; the module-level DEFAULT_* constants are not reassigned. -/
def setBroadcastPort (m : ConfigModule) (v : Nat) : ConfigModule :=
  { m with cache := { m.cache with osc_broadcast_port := v } }

/-- The lazily created outbound UDP client (udp_client.SimpleUDPClient):
its target and whether its socket was given broadcast permission. -/
structure OSCClient where
  targetIp : String
  targetPort : Nat
  broadcastEnabled : Bool
  deriving DecidableEq

/-- Network effects performed by send_osc_message. -/
inductive NetAction where
  | createEndpoint (ip : String) (port : Nat) (broadcast : Bool)
  | sendDatagram (address : String) (value : String)
  deriving DecidableEq

/-- Environment oracle for the fallible external effects inside
send_osc_message: whether client construction raises and whether
send_message raises. -/
structure SendEnv where
  createFails : Bool
  sendFails : Bool
  deriving DecidableEq

/-- Result of one send_osc_message call: the returned boolean, the
osc_client field after the call, the network actions performed and the
log entries written. -/
structure SendOutcome where
  ok : Bool
  client : Option OSCClient
  actions : List NetAction
  logs : List (LogLevel × String)
  deriving DecidableEq

/-- OSCServer.send_osc_message (src/osc/osc_server.py lines 272-317):
inside one try/except returning False on any exception, it rejects an
empty address before touching the client; lazily creates the client on
first use from the module constants config.DEFAULT_OSC_BROADCAST_IP and
config.DEFAULT_OSC_BROADCAST_PORT, with broadcast permission exactly
when that IP is 255.255.255.255; then sends the datagram. -/
def send_osc_message (m : ConfigModule) (client : Option OSCClient)
    (env : SendEnv) (address : String) (value : String) : SendOutcome :=
  if address.isEmpty then
    { ok := false, client := client, actions := [],
      logs := [(LogLevel.error, "Попытка отправить OSC-сообщение с пустым адресом")] }
  else
    match client with
    | none =>
      let target_ip := m.DEFAULT_OSC_BROADCAST_IP
      let target_port := m.DEFAULT_OSC_BROADCAST_PORT
      let broadcast := target_ip == "255.255.255.255"
      if env.createFails then
        { ok := false, client := none, actions := [],
          logs := [(LogLevel.error, "Ошибка отправки OSC-сообщения: не удалось создать клиент")] }
      else
        let c : OSCClient := ⟨target_ip, target_port, broadcast⟩
        if env.sendFails then
          { ok := false, client := some c,
            actions := [NetAction.createEndpoint target_ip target_port broadcast],
            logs := [(LogLevel.info, "Создан OSC-клиент для отправки сообщений на " ++ target_ip ++ ":" ++ toString target_port),
                     (LogLevel.error, "Ошибка отправки OSC-сообщения: не удалось отправить")] }
        else
          { ok := true, client := some c,
            actions := [NetAction.createEndpoint target_ip target_port broadcast,
                        NetAction.sendDatagram address value],
            logs := [(LogLevel.info, "Создан OSC-клиент для отправки сообщений на " ++ target_ip ++ ":" ++ toString target_port),
                     (LogLevel.debug, "Отправлено OSC-сообщение: " ++ address ++ " -> " ++ value)] }
    | some c =>
      if env.sendFails then
        { ok := false, client := some c, actions := [],
          logs := [(LogLevel.error, "Ошибка отправки OSC-сообщения: не удалось отправить")] }
      else
        { ok := true, client := some c,
          actions := [NetAction.sendDatagram address value],
          logs := [(LogLevel.debug, "Отправлено OSC-сообщение: " ++ address ++ " -> " ++ value)] }

/-- Outcome of binding the inbound UDP socket in OSCServer.run. -/
inductive BindOutcome where
  | ok
  | sockError (msg : String)
  deriving DecidableEq

/-- OSCServer.run up to entry into the serve loop (src/osc/osc_server.py
lines 319-335): log the start message; on a socket error while creating
the server, log it, emit one status event with pseudo-address ERROR and
return without serving. The boolean records whether the serve loop was
entered. The whole body sits inside a catch-all try/except, so no
exception escapes the server thread; the Lean function is total. -/
def serverRun (ip : String) (port : Nat) (bind : BindOutcome) :
    List TraceItem × Bool :=
  let pre := [TraceItem.log LogLevel.info ("OSC-сервер запущен на " ++ ip ++ ":" ++ toString port)]
  match bind with
  | BindOutcome.ok => (pre, true)
  | BindOutcome.sockError e =>
    (pre ++ [TraceItem.log LogLevel.error ("Не удалось создать OSC-сервер: " ++ e),
             TraceItem.emit "ERROR" ("Не удалось запустить OSC-сервер: " ++ e)], false)

/-- Steps performed by OSCServer.stop, plus joinThread, which models
QThread.wait(): OSCServer.stop itself never performs it (the caller in
src/gui/osc_handlers.py calls wait() separately after stop()). -/
inductive StopAction where
  | setStopFlag
  | closeServer
  | closeClient
  | joinThread
  deriving DecidableEq

/-- Server state visible to OSCServer.stop: the running flag and, for
the inbound server socket and the outbound client socket, None when
never created or the closed flag once created. -/
structure ServerState where
  running : Bool
  serverSock : Option Bool
  clientSock : Option Bool
  deriving DecidableEq

/-- OSCServer.stop (src/osc/osc_server.py lines 350-367): clear the
running flag; if the server was created, close its socket; if the
outbound client was created, close its socket (socket close is a no-op
on an already-closed socket, and each close is wrapped in try/except).
Returns the new state and the actions performed. -/
def stop (s : ServerState) : ServerState × List StopAction :=
  ({ running := false,
     serverSock := s.serverSock.map (fun _ => true),
     clientSock := s.clientSock.map (fun _ => true) },
   [StopAction.setStopFlag]
   ++ (match s.serverSock with
       | some _ => [StopAction.closeServer]
       | none => [])
   ++ (match s.clientSock with
       | some _ => [StopAction.closeClient]
       | none => []))

/-- Concrete stored settings at application start: the defaults of
SettingsManager.DEFAULT_SETTINGS in src/config.py. -/
def storedDefaults : SettingsCache := ⟨"255.255.255.255", 9000⟩

/-- The config module right after import of src/config.py. -/
def configAtImport : ConfigModule := configLoad storedDefaults

/-- The config module after the GUI updated the outbound target via
settings_manager.set (as OSCHandlers.on_capture_name_changed does in
src/gui/osc_handlers.py lines 51-58) before any send happened. -/
def configAfterGuiUpdate : ConfigModule :=
  setBroadcastPort (setBroadcastIp configAtImport "192.168.1.50") 9001

/-- Claim C1 (code_bug evaluation): after the configured outbound target
is changed to (192.168.1.50, 9001) before the first send, the first
send_osc_message still creates its endpoint from the module-load
constants (255.255.255.255, 9000), not from the most recently
configured target — contradicting the claim and the clear intent of the
GUI code that re-configures the target right before sending. -/
theorem claim_C1_first_send_uses_stale_target :
    configAfterGuiUpdate.cache = ⟨"192.168.1.50", 9001⟩
    ∧ (send_osc_message configAfterGuiUpdate none ⟨false, false⟩
         OSC_CAPTURE_NAME_CHANGED "Take_01").actions
      = [NetAction.createEndpoint "255.255.255.255" 9000 true,
         NetAction.sendDatagram OSC_CAPTURE_NAME_CHANGED "Take_01"]
    ∧ (("255.255.255.255", 9000) : String × Nat)
      ≠ (configAfterGuiUpdate.cache.osc_broadcast_ip,
         configAfterGuiUpdate.cache.osc_broadcast_port) := by
  decide

/-- Claim C2: both recording handlers emit their human-readable status
event synchronously, as the second trace item, before and independently
of any backend activity; they submit exactly one backend task when the
worker reports itself connected and otherwise log a warning and submit
nothing. -/
theorem claim_C2_recording_handlers_status_then_task
    (worker : Option ShogunWorker) (address : String) (args : List OSCArg) :
    (start_recording worker address args).take 2
      = [TraceItem.log LogLevel.info ("Получена команда OSC: " ++ address ++ " -> Запуск записи"),
         TraceItem.emit address "Запуск записи"]
    ∧ emittedEvents (start_recording worker address args) = [(address, "Запуск записи")]
    ∧ backendCalls (start_recording worker address args)
      = (if workerConnected worker then [BackendCall.startcapture] else [])
    ∧ warningLogs (start_recording worker address args)
      = (if workerConnected worker then []
         else ["Не удалось запустить запись: нет подключения к Shogun Live"])
    ∧ (stop_recording worker address args).take 2
      = [TraceItem.log LogLevel.info ("Получена команда OSC: " ++ address ++ " -> Остановка записи"),
         TraceItem.emit address "Остановка записи"]
    ∧ emittedEvents (stop_recording worker address args) = [(address, "Остановка записи")]
    ∧ backendCalls (stop_recording worker address args)
      = (if workerConnected worker then [BackendCall.stopcapture] else [])
    ∧ warningLogs (stop_recording worker address args)
      = (if workerConnected worker then []
         else ["Не удалось остановить запись: нет подключения к Shogun Live"]) := by
  cases hw : workerConnected worker <;>
    simp [start_recording, stop_recording, hw, emittedEvents, backendCalls,
          warningLogs, emitOf, submitOf, warnOf]

/-- Claim C3: set_capture_name strips its first argument; when the
stripped value is empty it emits exactly the error-status event and no
backend call, and otherwise it emits the status event and submits
exactly one backend set-capture-name call carrying the stripped value
precisely when the worker reports itself connected. -/
theorem claim_C3_capture_name_trims_and_rejects_empty
    (worker : Option ShogunWorker) (address : String) (a : OSCArg)
    (rest : List OSCArg) :
    emittedEvents (set_capture_name worker address (a :: rest))
      = (if (pyStrip a.pyStr).isEmpty then [(address, "Ошибка: пустое имя захвата")]
         else [(address, "Установка имени захвата: \x27" ++ pyStrip a.pyStr ++ "\x27")])
    ∧ backendCalls (set_capture_name worker address (a :: rest))
      = (if (pyStrip a.pyStr).isEmpty then []
         else if workerConnected worker then
           [BackendCall.setCaptureName (pyStrip a.pyStr)]
         else []) := by
  cases he : (pyStrip a.pyStr).isEmpty <;> cases hw : workerConnected worker <;>
    simp [set_capture_name, he, hw, emittedEvents, backendCalls, emitOf, submitOf]

/-- Claim C4: set_capture_description forwards its first argument
verbatim — no stripping and no emptiness rejection — and submits
exactly one backend call carrying that exact value precisely when the
worker reports itself connected; in particular the empty string is
accepted and reaches the backend unchanged. -/
theorem claim_C4_description_forwarded_verbatim
    (worker : Option ShogunWorker) (address : String) (a : OSCArg)
    (rest : List OSCArg) :
    emittedEvents (set_capture_description worker address (a :: rest))
      = [(address, "Установка описания захвата: \x27" ++ a.pyStr ++ "\x27")]
    ∧ backendCalls (set_capture_description worker address (a :: rest))
      = (if workerConnected worker then
           [BackendCall.setCaptureDescription a.pyStr]
         else [])
    ∧ backendCalls (set_capture_description (some ⟨true⟩) "/SetCaptureDescription" [OSCArg.str ""])
      = [BackendCall.setCaptureDescription ""] := by
  refine ⟨?_, ?_, by decide⟩ <;>
    cases hw : workerConnected worker <;>
      simp [set_capture_description, hw, emittedEvents, backendCalls, emitOf, submitOf]

/-- Claim C5: every task emits exactly one terminal signal — finished
with the coroutine result on success, error with the exception message
on failure — and on failure the message is also logged; taskRun is a
total function, so the exception never propagates to the caller or the
inbound loop thread. -/
theorem claim_C5_task_exactly_one_terminal_outcome {α : Type}
    (coro : Except String α) :
    (taskRun coro).2.length = 1
    ∧ finishedResults (taskRun coro).2
      = (match coro with | Except.ok r => [r] | Except.error _ => [])
    ∧ errorMessages (taskRun coro).2
      = (match coro with | Except.ok _ => [] | Except.error e => [e])
    ∧ (taskRun coro).1
      = (match coro with
         | Except.ok _ => []
         | Except.error e => [(LogLevel.error, "Ошибка в ShogunTask: " ++ e)]) := by
  cases coro <;>
    simp [taskRun, finishedResults, errorMessages, finishedOf, errorOf]

/-- Claim C6: send_osc_message fails closed — it returns true exactly
when the address is non-empty, the client exists or its creation
succeeds, and the send succeeds; with an empty address it performs no
network action at all and leaves the client untouched. It is a total
function, so it never raises to the caller. -/
theorem claim_C6_send_fails_closed (m : ConfigModule)
    (client : Option OSCClient) (env : SendEnv) (address : String)
    (value : String) :
    (send_osc_message m client env address value).ok
      = (!address.isEmpty && (client.isSome || !env.createFails) && !env.sendFails)
    ∧ (send_osc_message m client env "" value).actions = []
    ∧ (send_osc_message m client env "" value).client = client := by
  have h0 : ("" : String).isEmpty = true := by decide
  rcases env with ⟨cf, sf⟩
  cases ha : address.isEmpty <;> cases client <;> cases cf <;> cases sf <;>
    simp [send_osc_message, ha, h0]

/-- Claim C7: when binding the inbound socket fails, OSCServer.run emits
exactly one status event, with pseudo-address ERROR, and does not enter
the serve loop; when binding succeeds the serve loop is entered. serverRun
is total, so no exception escapes the server thread. -/
theorem claim_C7_bind_failure_nonfatal (ip : String) (port : Nat)
    (e : String) :
    emittedEvents (serverRun ip port (BindOutcome.sockError e)).1
      = [("ERROR", "Не удалось запустить OSC-сервер: " ++ e)]
    ∧ (serverRun ip port (BindOutcome.sockError e)).2 = false
    ∧ (serverRun ip port BindOutcome.ok).2 = true := by
  simp [serverRun, emittedEvents, emitOf]

/-- Claim C8 (counterexample): on a started server with both sockets
created, OSCServer.stop performs no join of the serve thread — refuting
the claim that stop() joins the serve thread (the caller performs
wait() separately, in src/gui/osc_handlers.py stop_osc_server). -/
theorem claim_C8_stop_does_not_join :
    StopAction.joinThread ∉ (stop ⟨true, some false, some false⟩).2 := by
  decide

/-- Claim C8 (amended): stop clears the running flag, closes the server
socket if one was created and the outbound client socket if one was
created, and is idempotent — a second stop on the already-stopped state
changes nothing and raises no error; but the join of the serve thread
is not performed by stop itself. -/
theorem claim_C8_stop_closes_and_idempotent (s : ServerState) :
    (stop s).1.running = false
    ∧ (stop s).1.serverSock = s.serverSock.map (fun _ => true)
    ∧ (stop s).1.clientSock = s.clientSock.map (fun _ => true)
    ∧ stop (stop s).1 = stop s
    ∧ StopAction.joinThread ∉ (stop s).2 := by
  rcases s with ⟨r, os, oc⟩
  cases os <;> cases oc <;> simp [stop]

/-- Claim C9: for every datagram whose address has no registered match,
dispatch invokes the default handler exactly once, with the original
address; the default handler emits exactly one status event whose text
joins the arguments with a comma-space, or is the no-arguments marker
when there are none, and it is a total function, so it never raises. -/
theorem claim_C9_default_handler_joined_args
    (worker : Option ShogunWorker) (address : String) (args : List OSCArg)
    (h : lookupHandler address = none) :
    (dispatchMessage worker address args).2 = 1
    ∧ (dispatchMessage worker address args).1 = default_handler worker address args
    ∧ emittedEvents (dispatchMessage worker address args).1
      = [(address, if args.isEmpty then "нет аргументов"
                   else String.intercalate ", " (args.map OSCArg.pyStr))] := by
  cases ha : args.isEmpty <;>
    simp [dispatchMessage, h, default_handler, emittedEvents, emitOf, ha]

/-- Witness for claim C9 at the unregistered address /FooBar with two
arguments. -/
theorem claim_C9_default_handler_joined_args_witness :
    (dispatchMessage none "/FooBar" [OSCArg.str "hello", OSCArg.int 5]).2 = 1
    ∧ emittedEvents (dispatchMessage none "/FooBar" [OSCArg.str "hello", OSCArg.int 5]).1
      = [("/FooBar", "hello, 5")] := by
  have h := claim_C9_default_handler_joined_args none "/FooBar"
    [OSCArg.str "hello", OSCArg.int 5] (by decide)
  exact ⟨h.1, h.2.2.trans (by decide)⟩

/-- Claim C10: set_capture_description invoked with no arguments emits
exactly the error-status event, logs a warning, and issues no backend
call, for every worker state. -/
theorem claim_C10_description_missing_argument_rejected
    (worker : Option ShogunWorker) (address : String) :
    emittedEvents (set_capture_description worker address [])
      = [(address, "Ошибка: отсутствует описание захвата")]
    ∧ backendCalls (set_capture_description worker address []) = []
    ∧ warningLogs (set_capture_description worker address [])
      = ["Получена команда OSC: " ++ address ++ " -> Отсутствует описание захвата"] := by
  simp [set_capture_description, emittedEvents, backendCalls, warningLogs,
        emitOf, submitOf, warnOf]

end ShogunOSC
